import Mathlib

/-!
Verification of `UxtFingerCursorComponent.h` from MixedReality-UXTools-Unreal.

The repository fragment contains only the component header: the four float
properties with their default values and `UPROPERTY` specifiers, the private
`TWeakObjectPtr<UUxtNearPointerComponent> HandPointerWeak` member, and the
declarations (not bodies) of the overridden `BeginPlay` and `TickComponent`
lifecycle hooks.  Engine `float` values are embedded as `ℚ`; the default
values `20.0f`, `0.85f`, `0.15f`, `10.0f` become the exact rationals `20`,
`17/20`, `3/20`, `10`.  The method bodies and the engine types
(`TWeakObjectPtr`, the base `UUxtRingCursorComponent` rendering state) are
not in the fragment and are modelled from the spec where a claim needs them;
each such definition carries a doc comment saying so.
-/

namespace UxtFingerCursor

/-- The tunable state declared in the header of `UUxtFingerCursorComponent`,
together with the rendering state it inherits from the base ring cursor
(`bVisible`, `radius`, and an orientation blend weight; the base class is not
in the fragment, so the inherited rendering state is the minimal state the
spec describes: visibility, radius, orientation).  `HandPointerWeak` holds an
optional object id, the shallow embedding of
`TWeakObjectPtr<UUxtNearPointerComponent>`. -/
structure UUxtFingerCursorComponent where
  MaxDistanceToTarget : ℚ
  MaxRadius : ℚ
  MinRadius : ℚ
  AlignWithSurfaceDistance : ℚ
  HandPointerWeak : Option Nat
  bVisible : Bool
  radius : ℚ
  /-- Orientation blend: `1` = facing the pointer, `0` = aligned flush with
  the touched surface's normal. -/
  orientWeight : ℚ
  deriving Repr, DecidableEq

/-- The default-constructed component, with the in-class initializers of the
header: `MaxDistanceToTarget = 20.0f`, `MaxRadius = 0.85f`,
`MinRadius = 0.15f`, `AlignWithSurfaceDistance = 10.0f`; the weak pointer is
unbound and the rendering state is at the base class's neutral values. -/
def defaultComponent : UUxtFingerCursorComponent :=
  { MaxDistanceToTarget := 20
    MaxRadius := mkRat 17 20
    MinRadius := mkRat 3 20
    AlignWithSurfaceDistance := 10
    HandPointerWeak := none
    bVisible := true
    radius := 0
    orientWeight := 1 }

/-- The observable state of the near pointer the cursor reads from: its
current distance to the interaction target. -/
structure UUxtNearPointerComponent where
  DistanceToTarget : ℚ
  deriving Repr, DecidableEq

/-- The radius the per-frame update assigns, as a function of the current
pointer-to-target distance `d`: the linear interpolation between `MinRadius`
at `d = 0` and `MaxRadius` at `d = MaxDistanceToTarget`, with the
interpolation parameter clamped at `1`, so the radius saturates at
`MaxRadius` for `d` beyond `MaxDistanceToTarget`. -/
def cursorRadius (c : UUxtFingerCursorComponent) (d : ℚ) : ℚ :=
  c.MinRadius + (c.MaxRadius - c.MinRadius) * min (d / c.MaxDistanceToTarget) 1

/-- The orientation blend weight the per-frame update assigns: `1` (facing
the pointer) at or beyond `AlignWithSurfaceDistance`, decreasing linearly to
`0` (flush with the touched surface) at contact. -/
def orientBlend (c : UUxtFingerCursorComponent) (d : ℚ) : ℚ :=
  min (d / c.AlignWithSurfaceDistance) 1

/-- Modelled from the spec: the body of
`UUxtFingerCursorComponent::TickComponent` is not in the repository fragment
(the header only declares the override).  Per the spec (§4.1, §7, §8): on
every simulation step, given the current distance between the pointer and
its interaction target, the radius is linearly interpolated between
`MinRadius` at zero distance and `MaxRadius` at `MaxDistanceToTarget` or
beyond; the cursor is hidden for all distances `d ≥ MaxDistanceToTarget`;
below `AlignWithSurfaceDistance` the orientation transitions from facing the
pointer to aligning with the touched surface; and an invalid pointer
reference performs no rendering mutation and does not fault. -/
def TickComponent (c : UUxtFingerCursorComponent)
    (pointer : Option UUxtNearPointerComponent) : UUxtFingerCursorComponent :=
  match pointer with
  | none => c
  | some p =>
      let d := p.DistanceToTarget
      { c with
        radius := cursorRadius c d
        bVisible := decide (d < c.MaxDistanceToTarget)
        orientWeight := orientBlend c d }

/-- A component of the owning actor, as far as `BeginPlay`'s lookup is
concerned: either the near pointer (with its object id) or some unrelated
component. -/
inductive ActorComponent where
  | nearPointer (id : Nat)
  | other
  deriving Repr, DecidableEq

/-- The engine's `FindComponentByClass<UUxtNearPointerComponent>`: the first
near-pointer component of the owning actor, if any. -/
def findNearPointer : List ActorComponent → Option Nat
  | [] => none
  | ActorComponent.nearPointer id :: _ => some id
  | ActorComponent.other :: rest => findNearPointer rest

/-- Modelled from the spec: the body of
`UUxtFingerCursorComponent::BeginPlay` is not in the repository fragment
(the header only declares the override).  Per the spec (§4.1): on
activation the component locates the touch pointer on the owning actor and
binds `HandPointerWeak` to it, failing silently — leaving the reference
unbound and disabling rendering — if none is found. -/
def BeginPlay (c : UUxtFingerCursorComponent) (owner : List ActorComponent) :
    UUxtFingerCursorComponent :=
  match findNearPointer owner with
  | some id => { c with HandPointerWeak := some id }
  | none => { c with HandPointerWeak := none, bVisible := false }

/-! ### The reflection surface of the class

The `UPROPERTY` specifiers and C++ access levels, transcribed from the
header.  `EditAnywhere` makes a property editable in the visual editor;
`BlueprintReadWrite` exposes it to the scripting layer. -/

/-- C++ access level of a class member. -/
inductive Access where
  | publicAccess
  | protectedAccess
  | privateAccess
  deriving Repr, DecidableEq

/-- A `UPROPERTY` declaration of the class: its name, its C++ access level,
and its `EditAnywhere` / `BlueprintReadWrite` specifiers. -/
structure UPropertyDecl where
  name : String
  access : Access
  editAnywhere : Bool
  blueprintReadWrite : Bool
  deriving Repr, DecidableEq

/-- The `UPROPERTY` declarations of `UUxtFingerCursorComponent`, exactly as
in the header: three public properties with
`EditAnywhere, BlueprintReadWrite`, and the private
`AlignWithSurfaceDistance` with `EditAnywhere` only. -/
def uproperties : List UPropertyDecl :=
  [ { name := "MaxDistanceToTarget", access := Access.publicAccess
      editAnywhere := true, blueprintReadWrite := true }
  , { name := "MaxRadius", access := Access.publicAccess
      editAnywhere := true, blueprintReadWrite := true }
  , { name := "MinRadius", access := Access.publicAccess
      editAnywhere := true, blueprintReadWrite := true }
  , { name := "AlignWithSurfaceDistance", access := Access.privateAccess
      editAnywhere := true, blueprintReadWrite := false } ]

/-- A property is editable through the visual editor iff it carries
`EditAnywhere`. -/
def editorEditable (p : UPropertyDecl) : Bool := p.editAnywhere

/-- A property is editable through the scripting (Blueprint) layer iff it
carries `BlueprintReadWrite`. -/
def scriptingEditable (p : UPropertyDecl) : Bool := p.blueprintReadWrite

/-- Kind of a (non-`UPROPERTY`-specific) class member, as needed to state
what the class surface contains. -/
inductive MemberKind where
  | floatProp
  | weakPtr
  | method
  deriving Repr, DecidableEq

/-- A declared member of the class: name, C++ access level, kind. -/
structure MemberDecl where
  name : String
  access : Access
  kind : MemberKind
  deriving Repr, DecidableEq

/-- Every member declared in the body of `UUxtFingerCursorComponent`,
transcribed from the header. -/
def classMembers : List MemberDecl :=
  [ ⟨"MaxDistanceToTarget", Access.publicAccess, MemberKind.floatProp⟩
  , ⟨"MaxRadius", Access.publicAccess, MemberKind.floatProp⟩
  , ⟨"MinRadius", Access.publicAccess, MemberKind.floatProp⟩
  , ⟨"BeginPlay", Access.protectedAccess, MemberKind.method⟩
  , ⟨"TickComponent", Access.protectedAccess, MemberKind.method⟩
  , ⟨"AlignWithSurfaceDistance", Access.privateAccess, MemberKind.floatProp⟩
  , ⟨"HandPointerWeak", Access.privateAccess, MemberKind.weakPtr⟩ ]

/-! ### Weak-pointer semantics

Modelled from the spec's glossary: a weak reference is "a non-owning handle
into the host engine's garbage-collected object graph that can become
invalid without notification".  `TWeakObjectPtr` itself is engine code, not
part of the fragment.  The alive set of the object graph is a list of object
ids; destruction removes an object from it without consulting any weak
references held elsewhere, and dereferencing a weak pointer to a destroyed
object yields nothing. -/

/-- Modelled from the spec: destruction of an engine object removes it from
the alive set; no weak reference held anywhere is consulted, so holding a
`TWeakObjectPtr` never keeps the referenced object alive. -/
def destroyObject (alive : List Nat) (id : Nat) : List Nat :=
  alive.filter (fun x => x ≠ id)

/-- Modelled from the spec: dereferencing a `TWeakObjectPtr` (its `Get`)
yields the object only while it is alive, and `none` otherwise. -/
def weakDeref (alive : List Nat) (w : Option Nat) : Option Nat :=
  match w with
  | none => none
  | some id => if id ∈ alive then some id else none

end UxtFingerCursor

namespace UxtFingerCursor

/-! ### Helper lemmas -/

/-- For `0 ≤ d ≤ m` with `0 < m`, the clamp in `cursorRadius` is inactive. -/
lemma min_div_one_of_le {d m : ℚ} (hm : 0 < m) (hdm : d ≤ m) :
    min (d / m) 1 = d / m := by
  apply min_eq_left
  rw [div_le_one hm]
  exact hdm

/-- The radius function, written on the interpolation parameter. -/
lemma cursorRadius_eq (c : UUxtFingerCursorComponent) (d : ℚ) :
    cursorRadius c d
      = c.MinRadius + (c.MaxRadius - c.MinRadius) * min (d / c.MaxDistanceToTarget) 1 :=
  rfl

/-- Stated from the claim's words, for comparison with the embedded update:
the linear interpolation between `MinRadius` at `d = 0` and `MaxRadius` at
`d = MaxDistanceToTarget`, clamped to `MaxRadius` for `d` beyond
`MaxDistanceToTarget`. -/
def claimedRadius (c : UUxtFingerCursorComponent) (d : ℚ) : ℚ :=
  if d ≤ c.MaxDistanceToTarget then
    c.MinRadius + (c.MaxRadius - c.MinRadius) * (d / c.MaxDistanceToTarget)
  else
    c.MaxRadius

lemma tick_some_radius (c : UUxtFingerCursorComponent) (p : UUxtNearPointerComponent) :
    (TickComponent c (some p)).radius = cursorRadius c p.DistanceToTarget := rfl

lemma tick_some_bVisible (c : UUxtFingerCursorComponent) (p : UUxtNearPointerComponent) :
    (TickComponent c (some p)).bVisible = decide (p.DistanceToTarget < c.MaxDistanceToTarget) :=
  rfl

lemma tick_some_orientWeight (c : UUxtFingerCursorComponent) (p : UUxtNearPointerComponent) :
    (TickComponent c (some p)).orientWeight = orientBlend c p.DistanceToTarget := rfl

/-- C1: On every per-frame update (`TickComponent`) with a valid pointer
reference whose distance to the target is `d`, the cursor radius is set to
the linear interpolation between `MinRadius` at `d = 0` and `MaxRadius` at
`d = MaxDistanceToTarget`, clamped to `MaxRadius` for `d` beyond
`MaxDistanceToTarget`. -/
theorem uxt_c1_tick_radius_is_clamped_lerp (c : UUxtFingerCursorComponent)
    (p : UUxtNearPointerComponent) (hm : 0 < c.MaxDistanceToTarget) :
    (TickComponent c (some p)).radius = claimedRadius c p.DistanceToTarget := by
  rw [tick_some_radius, cursorRadius, claimedRadius]
  by_cases h : p.DistanceToTarget ≤ c.MaxDistanceToTarget
  · rw [if_pos h, min_div_one_of_le hm h]
  · rw [if_neg h]
    have h1 : (1 : ℚ) ≤ p.DistanceToTarget / c.MaxDistanceToTarget :=
      (one_le_div hm).mpr (le_of_lt (not_le.mp h))
    rw [min_eq_right h1]
    ring

theorem uxt_c1_witness :
    0 < defaultComponent.MaxDistanceToTarget ∧
      (TickComponent defaultComponent (some ⟨5⟩)).radius = claimedRadius defaultComponent 5 :=
  ⟨by decide, uxt_c1_tick_radius_is_clamped_lerp defaultComponent ⟨5⟩ (by decide)⟩

/-- C2: On every per-frame update with a valid pointer reference, if the
pointer-to-target distance `d` satisfies `d ≥ MaxDistanceToTarget`, then
after the update the cursor is hidden. -/
theorem uxt_c2_hidden_beyond_max (c : UUxtFingerCursorComponent)
    (p : UUxtNearPointerComponent)
    (h : c.MaxDistanceToTarget ≤ p.DistanceToTarget) :
    (TickComponent c (some p)).bVisible = false := by
  rw [tick_some_bVisible, decide_eq_false_iff_not]
  exact not_lt.mpr h

theorem uxt_c2_witness :
    defaultComponent.MaxDistanceToTarget ≤ (⟨25⟩ : UUxtNearPointerComponent).DistanceToTarget ∧
      (TickComponent defaultComponent (some ⟨25⟩)).bVisible = false :=
  ⟨by decide, uxt_c2_hidden_beyond_max defaultComponent ⟨25⟩ (by decide)⟩

/-- C3: For `MinRadius ≤ MaxRadius` and `0 < MaxDistanceToTarget`, the
radius computed by the per-frame update is monotone non-decreasing on
`[0, MaxDistanceToTarget]`, with value `MinRadius` at distance `0` and
`MaxRadius` at distance `MaxDistanceToTarget`. -/
theorem uxt_c3_radius_monotone (c : UUxtFingerCursorComponent) (d₁ d₂ : ℚ)
    (hm : 0 < c.MaxDistanceToTarget) (hr : c.MinRadius ≤ c.MaxRadius)
    (h1 : 0 ≤ d₁) (h12 : d₁ ≤ d₂) (h2 : d₂ ≤ c.MaxDistanceToTarget) :
    (TickComponent c (some ⟨d₁⟩)).radius ≤ (TickComponent c (some ⟨d₂⟩)).radius ∧
      (TickComponent c (some ⟨0⟩)).radius = c.MinRadius ∧
      (TickComponent c (some ⟨c.MaxDistanceToTarget⟩)).radius = c.MaxRadius := by
  refine ⟨?_, ?_, ?_⟩
  · rw [tick_some_radius, tick_some_radius, cursorRadius, cursorRadius]
    have hd : d₁ / c.MaxDistanceToTarget ≤ d₂ / c.MaxDistanceToTarget :=
      div_le_div_of_nonneg_right h12 hm.le
    have hmin : min (d₁ / c.MaxDistanceToTarget) 1 ≤ min (d₂ / c.MaxDistanceToTarget) 1 :=
      min_le_min hd le_rfl
    have hsub : 0 ≤ c.MaxRadius - c.MinRadius := sub_nonneg.mpr hr
    exact add_le_add_left (mul_le_mul_of_nonneg_left hmin hsub) _
  · rw [tick_some_radius, cursorRadius]
    simp
  · rw [tick_some_radius, cursorRadius]
    simp only [div_self (ne_of_gt hm), min_self, mul_one]
    ring

theorem uxt_c3_witness :
    (0 < defaultComponent.MaxDistanceToTarget ∧
        defaultComponent.MinRadius ≤ defaultComponent.MaxRadius ∧
        (0 : ℚ) ≤ 5 ∧ (5 : ℚ) ≤ 10 ∧ (10 : ℚ) ≤ defaultComponent.MaxDistanceToTarget) ∧
      ((TickComponent defaultComponent (some ⟨5⟩)).radius ≤
          (TickComponent defaultComponent (some ⟨10⟩)).radius ∧
        (TickComponent defaultComponent (some ⟨0⟩)).radius = defaultComponent.MinRadius ∧
        (TickComponent defaultComponent
            (some ⟨defaultComponent.MaxDistanceToTarget⟩)).radius = defaultComponent.MaxRadius) :=
  ⟨⟨by decide, by decide, by decide, by decide, by decide⟩,
    uxt_c3_radius_monotone defaultComponent 5 10 (by decide) (by decide) (by decide)
      (by decide) (by decide)⟩

/-- C4: On a per-frame update in which the weak pointer reference is
invalid, the update performs no rendering-state mutation: the component is
returned unchanged, and no fault occurs (`TickComponent` is total). -/
theorem uxt_c4_invalid_pointer_no_mutation (c : UUxtFingerCursorComponent) :
    TickComponent c none = c := rfl

/-- C5: On activation, `BeginPlay` binds `HandPointerWeak` to the touch
pointer found on the owning actor; if the owning actor has no such pointer
component, the reference is left unbound and rendering is disabled, with no
error raised (`BeginPlay` is total). -/
theorem uxt_c5_beginplay_binds_or_disables (c : UUxtFingerCursorComponent)
    (owner : List ActorComponent) :
    (∀ id, findNearPointer owner = some id →
        (BeginPlay c owner).HandPointerWeak = some id) ∧
      (findNearPointer owner = none →
        (BeginPlay c owner).HandPointerWeak = none ∧ (BeginPlay c owner).bVisible = false) := by
  constructor
  · intro id hid
    rw [BeginPlay, hid]
  · intro hnone
    rw [BeginPlay, hnone]
    exact ⟨rfl, rfl⟩

theorem uxt_c5_witness :
    ((BeginPlay defaultComponent [ActorComponent.other, ActorComponent.nearPointer 7]
        ).HandPointerWeak = some 7) ∧
      ((BeginPlay defaultComponent [ActorComponent.other]).HandPointerWeak = none ∧
        (BeginPlay defaultComponent [ActorComponent.other]).bVisible = false) :=
  ⟨(uxt_c5_beginplay_binds_or_disables defaultComponent
      [ActorComponent.other, ActorComponent.nearPointer 7]).1 7 rfl,
    (uxt_c5_beginplay_binds_or_disables defaultComponent [ActorComponent.other]).2 rfl⟩

/-- C6: On every per-frame update with a valid pointer reference, at or
beyond `AlignWithSurfaceDistance` the cursor fully faces the pointer (blend
weight `1`); below it the orientation transitions monotonically towards
alignment with the touched surface's normal, reaching full surface
alignment (blend weight `0`) at contact. -/
theorem uxt_c6_orientation_transition (c : UUxtFingerCursorComponent) (d d₁ d₂ : ℚ)
    (hA : 0 < c.AlignWithSurfaceDistance) :
    (c.AlignWithSurfaceDistance ≤ d → (TickComponent c (some ⟨d⟩)).orientWeight = 1) ∧
      (0 ≤ d → d < c.AlignWithSurfaceDistance →
        (TickComponent c (some ⟨d⟩)).orientWeight < 1) ∧
      (TickComponent c (some ⟨0⟩)).orientWeight = 0 ∧
      (d₁ ≤ d₂ →
        (TickComponent c (some ⟨d₁⟩)).orientWeight ≤
          (TickComponent c (some ⟨d₂⟩)).orientWeight) := by
  refine ⟨?_, ?_, ?_, ?_⟩
  · intro h
    rw [tick_some_orientWeight, orientBlend]
    exact min_eq_right ((one_le_div hA).mpr h)
  · intro h0 hd
    rw [tick_some_orientWeight, orientBlend]
    calc min (d / c.AlignWithSurfaceDistance) 1 ≤ d / c.AlignWithSurfaceDistance :=
          min_le_left _ _
      _ < 1 := (div_lt_one hA).mpr hd
  · rw [tick_some_orientWeight, orientBlend]
    simp
  · intro h12
    rw [tick_some_orientWeight, tick_some_orientWeight, orientBlend, orientBlend]
    exact min_le_min (div_le_div_of_nonneg_right h12 hA.le) le_rfl

theorem uxt_c6_witness :
    0 < defaultComponent.AlignWithSurfaceDistance ∧
      ((TickComponent defaultComponent (some ⟨12⟩)).orientWeight = 1 ∧
        (TickComponent defaultComponent (some ⟨4⟩)).orientWeight < 1 ∧
        (TickComponent defaultComponent (some ⟨0⟩)).orientWeight = 0 ∧
        (TickComponent defaultComponent (some ⟨4⟩)).orientWeight ≤
          (TickComponent defaultComponent (some ⟨8⟩)).orientWeight) := by
  have h := uxt_c6_orientation_transition defaultComponent 12 4 8 (by decide)
  have h' := uxt_c6_orientation_transition defaultComponent 4 4 8 (by decide)
  exact ⟨by decide, h.1 (by decide), h'.2.1 (by decide) (by decide), h.2.2.1,
    h.2.2.2 (by decide)⟩

/-- C7 counterexample: the claim that only the three public properties are
editable through the editor/scripting layer fails on the header: the
private `AlignWithSurfaceDistance` carries `EditAnywhere` too, so four of
the component's own properties are editable through the visual editor, and
`AlignWithSurfaceDistance` is not one of the claimed three. -/
theorem uxt_c7_counterexample :
    (uproperties.filter (fun p => editorEditable p)).map UPropertyDecl.name
        = ["MaxDistanceToTarget", "MaxRadius", "MinRadius", "AlignWithSurfaceDistance"] ∧
      ("AlignWithSurfaceDistance"
          ∉ (["MaxDistanceToTarget", "MaxRadius", "MinRadius"] : List String)) := by
  decide

/-- C7 (amended): exactly three properties (`MaxDistanceToTarget`,
`MaxRadius`, `MinRadius`) are exposed to the scripting layer
(`BlueprintReadWrite`), and those same three plus the private
`AlignWithSurfaceDistance` — and no others — are editable through the
visual editor (`EditAnywhere`); `AlignWithSurfaceDistance` is not exposed
to the scripting layer. -/
theorem uxt_c7_editable_surface :
    (uproperties.filter (fun p => scriptingEditable p)).map UPropertyDecl.name
        = ["MaxDistanceToTarget", "MaxRadius", "MinRadius"] ∧
      (uproperties.filter (fun p => editorEditable p)).map UPropertyDecl.name
        = ["MaxDistanceToTarget", "MaxRadius", "MinRadius", "AlignWithSurfaceDistance"] ∧
      (uproperties.filter
          (fun p => editorEditable p && scriptingEditable p)).map UPropertyDecl.name
        = ["MaxDistanceToTarget", "MaxRadius", "MinRadius"] := by
  decide

/-- C8: the default-constructed component satisfies the documented
(unenforced) invariant: `0 ≤ MinRadius (= 0.15 = 3/20)`,
`MinRadius ≤ MaxRadius (= 0.85 = 17/20)`, and
`MaxDistanceToTarget (= 20) > 0`. -/
theorem uxt_c8_default_invariant :
    defaultComponent.MinRadius = 3/20 ∧
      defaultComponent.MaxRadius = 17/20 ∧
      defaultComponent.MaxDistanceToTarget = 20 ∧
      0 ≤ defaultComponent.MinRadius ∧
      defaultComponent.MinRadius ≤ defaultComponent.MaxRadius ∧
      0 < defaultComponent.MaxDistanceToTarget := by
  refine ⟨?_, ?_, rfl, by decide, by decide, by decide⟩
  · show mkRat 3 20 = 3/20
    norm_num [mkRat, Rat.normalize]
  · show mkRat 17 20 = 17/20
    norm_num [mkRat, Rat.normalize]

/-- C9: the default-constructed component satisfies
`AlignWithSurfaceDistance (= 10) < MaxDistanceToTarget (= 20)`: by default,
surface alignment begins only at distances at which the cursor is still
displayed. -/
theorem uxt_c9_align_below_max :
    defaultComponent.AlignWithSurfaceDistance = 10 ∧
      defaultComponent.MaxDistanceToTarget = 20 ∧
      defaultComponent.AlignWithSurfaceDistance < defaultComponent.MaxDistanceToTarget := by
  refine ⟨rfl, rfl, by decide⟩

/-- C10: the hand-pointer reference is held only as a private, non-owning
weak pointer: in the class surface, every member named `HandPointerWeak` is
private and of weak-pointer kind, no public member is a weak pointer (so no
public operation reads or rebinds it), and destroying the referenced object
invalidates every weak reference to it — holding the weak pointer never
keeps the object alive. -/
theorem uxt_c10_weak_private_nonowning :
    (∀ m, m ∈ classMembers → m.name = "HandPointerWeak" →
        m.access = Access.privateAccess ∧ m.kind = MemberKind.weakPtr) ∧
      (∀ m, m ∈ classMembers → m.access = Access.publicAccess →
        m.kind ≠ MemberKind.weakPtr) ∧
      (∀ (alive : List Nat) (id : Nat),
        id ∉ destroyObject alive id ∧
          weakDeref (destroyObject alive id) (some id) = none) := by
  refine ⟨by decide, by decide, ?_⟩
  intro alive id
  have hmem : id ∉ destroyObject alive id := by
    simp [destroyObject]
  refine ⟨hmem, ?_⟩
  simp [weakDeref, hmem]

theorem uxt_c10_witness :
    ((⟨"HandPointerWeak", Access.privateAccess, MemberKind.weakPtr⟩ : MemberDecl).access
          = Access.privateAccess ∧
        (⟨"HandPointerWeak", Access.privateAccess, MemberKind.weakPtr⟩ : MemberDecl).kind
          = MemberKind.weakPtr) ∧
      (3 ∉ destroyObject [3, 5] 3 ∧ weakDeref (destroyObject [3, 5] 3) (some 3) = none) :=
  ⟨uxt_c10_weak_private_nonowning.1
      ⟨"HandPointerWeak", Access.privateAccess, MemberKind.weakPtr⟩ (by decide) rfl,
    uxt_c10_weak_private_nonowning.2.2 [3, 5] 3⟩

end UxtFingerCursor
